import Mathlib

/-!
Verification of the WebAR floor-placement application's AR placement and
model-lifecycle state machine.  The definitions below are a shallow
embedding of the JavaScript source: `ARState` and its operations embed the
`ARSession` module (per-frame hit testing, tap handling, suppression),
`PinchState`/`handleScale` embed the `GestureHandler` pinch-to-scale code,
and `AppState` with its operations embeds the orchestrator in `main.js`
(model selection, loading, caching, cancel, reposition and tap-to-place).
Numbers are rationals; JavaScript objects referenced from several places
(entities, cache entries) live in explicit heaps addressed by naturals.
-/

namespace WebAR

/-- A 3-component vector, as used for positions, scales and rotations. -/
structure Vec3 where
  x : ℚ
  y : ℚ
  z : ℚ
deriving Repr, DecidableEq

/-- An axis-aligned bounding box (THREE.Box3). -/
structure Box3 where
  low : Vec3
  high : Vec3
deriving Repr, DecidableEq

/-- JavaScript `v || d` on an optional number: `undefined`/missing and `0`
are both falsy and yield the default. -/
def jsOrQ : Option ℚ → ℚ → ℚ
  | some v, d => if v = 0 then d else v
  | none, d => d

/-- JavaScript `Math.sign`. -/
def rsign (q : ℚ) : ℚ :=
  if 0 < q then 1 else if q < 0 then -1 else 0

/-- The floor-offset clamp in `main.js`:
`Math.min(Math.abs(f), 5.0) * Math.sign(f)`. -/
def clampOffset (f : ℚ) : ℚ :=
  min |f| 5 * rsign f

/-- Bounding box of a mesh whose intrinsic (unit-scale) box is `b`, as
measured by `THREE.Box3.setFromObject` when the entity scale is `s`:
each axis interval is scaled by the corresponding component, with the
endpoints reordered so `low ≤ high` per component. -/
def boxAtScale (s : Vec3) (b : Box3) : Box3 :=
  { low := ⟨min (s.x * b.low.x) (s.x * b.high.x),
            min (s.y * b.low.y) (s.y * b.high.y),
            min (s.z * b.low.z) (s.z * b.high.z)⟩,
    high := ⟨max (s.x * b.low.x) (s.x * b.high.x),
             max (s.y * b.low.y) (s.y * b.high.y),
             max (s.z * b.low.z) (s.z * b.high.z)⟩ }

/-- `boundingBox.getSize(...)`: componentwise `high - low`. -/
def boxSize (b : Box3) : Vec3 :=
  ⟨b.high.x - b.low.x, b.high.y - b.low.y, b.high.z - b.low.z⟩

/-- `Math.max(modelSize.x, modelSize.y, modelSize.z)` of a measured box. -/
def largestDim (b : Box3) : ℚ :=
  max (boxSize b).x (max (boxSize b).y (boxSize b).z)

/-! ### ARSession (hit-test provider), from `ar-session.js` -/

/-- The `ARSession` state relevant to hit testing and tap handling:
`lastHitPosition`, the reticle (hit marker) visibility and transform, the
`reticleEnabled`/`placementEnabled` flags, the suppression deadline and
the coarse surface-detected boolean. -/
structure ARState where
  lastHitPosition : Option Vec3
  reticleEnabled : Bool
  placementEnabled : Bool
  placementSuppressedUntil : ℚ
  markerVisible : Bool
  markerPos : Vec3
  surfaceDetected : Bool
deriving Repr, DecidableEq

/-- `ARSession.updateHitMarker`: when the reticle is enabled, move the
marker to the hit pose and show it; when disabled, hide it. -/
def updateHitMarker (s : ARState) (p : Vec3) : ARState :=
  if s.reticleEnabled then
    { s with markerVisible := true, markerPos := p }
  else
    { s with markerVisible := false }

/-- `ARSession.onXRFrame`, hit-test part.  The input is the list of
hit-test results for this frame; each result's pose may be absent
(`hit.getPose` returned null).  With at least one result carrying a pose,
the marker is updated and the pose position stored as the last known hit;
with zero results the stored hit is cleared, the surface flag dropped and
the marker hidden. -/
def onXRFrame (s : ARState) (results : List (Option Vec3)) : ARState :=
  match results with
  | [] =>
      { s with lastHitPosition := none, surfaceDetected := false, markerVisible := false }
  | hit :: _ =>
      match hit with
      | none => s
      | some p =>
          let s1 := updateHitMarker s p
          { s1 with lastHitPosition := some p, surfaceDetected := true }

/-- `ARSession.onSelect`: the tap handler.  Returns the position passed to
the placement callback, or `none` when the tap is ignored. -/
def onSelect (s : ARState) (now : ℚ) : Option Vec3 :=
  if !s.placementEnabled then none
  else if now < s.placementSuppressedUntil then none
  else
    match s.lastHitPosition with
    | some p => some p
    | none =>
        if s.markerVisible then some s.markerPos else none

/-- The tap decision procedure exactly as the specification words it: if
placement is disabled or the tap time is before the suppression deadline,
no placement; otherwise place at the last known hit if one exists;
otherwise place at the reticle marker's displayed transform if the marker
is visible; otherwise no placement. -/
def onSelectClaim (s : ARState) (now : ℚ) : Option Vec3 :=
  if s.placementEnabled = false ∨ now < s.placementSuppressedUntil then none
  else
    match s.lastHitPosition with
    | some p => some p
    | none =>
        if s.markerVisible then some s.markerPos else none

/-- `ARSession.suppressPlacement(durationMs)`. -/
def suppressPlacement (s : ARState) (now dur : ℚ) : ARState :=
  { s with placementSuppressedUntil := now + dur }

/-- `ARSession.setReticleEnabled`: disabling also hides the marker. -/
def setReticleEnabled (s : ARState) (b : Bool) : ARState :=
  if b then { s with reticleEnabled := true }
  else { s with reticleEnabled := false, markerVisible := false }

/-- `ARSession.setPlacementEnabled`. -/
def setPlacementEnabled (s : ARState) (b : Bool) : ARState :=
  { s with placementEnabled := b }

/-! ### GestureHandler, from `gesture-handler.js` -/

/-- The `CONFIG.gestures.scale` record from `config.js`. -/
structure ScaleConfig where
  minFactor : ℚ
  maxFactor : ℚ
  speed : ℚ
deriving Repr, DecidableEq

/-- The shipped configuration values (`config.js`): `minFactor: 1`,
`maxFactor: 10.0`, `speed: 1.0`. -/
def configScale : ScaleConfig :=
  { minFactor := 1, maxFactor := 10, speed := 1 }

/-- Effective minimum clamp factor: `this.config.scale.minFactor || 0.2`. -/
def effMinFactor (cfg : ScaleConfig) : ℚ :=
  jsOrQ (some cfg.minFactor) (1 / 5)

/-- Effective maximum clamp factor: `this.config.scale.maxFactor || 5.0`. -/
def effMaxFactor (cfg : ScaleConfig) : ℚ :=
  jsOrQ (some cfg.maxFactor) 5

/-- The gesture-handler state touched by the pinch-to-scale gesture: the
attached entity's scale attribute and the previous inter-finger
distance. -/
structure PinchState where
  scale : Vec3
  lastDistance : ℚ
deriving Repr, DecidableEq

/-- `GestureHandler.handleScale` on one two-finger update, taking the new
inter-finger distance.  With a zero stored distance the update only
records the distance; otherwise the scale is multiplied by
`1 + (ratio - 1) * speed` and each component clamped to
`[baseScale * minFactor, baseScale * maxFactor]`. -/
def handleScale (cfg : ScaleConfig) (baseScale : ℚ) (g : PinchState)
    (distance : ℚ) : PinchState :=
  if g.lastDistance = 0 then { g with lastDistance := distance }
  else
    let rawScaleFactor := distance / g.lastDistance
    let scaleFactor := 1 + (rawScaleFactor - 1) * cfg.speed
    let minScale := baseScale * effMinFactor cfg
    let maxScale := baseScale * effMaxFactor cfg
    { scale := ⟨max minScale (min maxScale (g.scale.x * scaleFactor)),
                max minScale (min maxScale (g.scale.y * scaleFactor)),
                max minScale (min maxScale (g.scale.z * scaleFactor))⟩,
      lastDistance := distance }

/-- The pinch state right after `attachToModel` on an entity with uniform
scale `b` (attach captures `b` as the base scale) followed by a two-finger
`onTouchStart` recording initial distance `d0`. -/
def attachPinchState (b d0 : ℚ) : PinchState :=
  { scale := ⟨b, b, b⟩, lastDistance := d0 }

/-- A uniform scale lying within the clamp interval derived from base
scale `b` under configuration `cfg`. -/
def pinchInBounds (cfg : ScaleConfig) (b : ℚ) (v : Vec3) : Prop :=
  (b * effMinFactor cfg ≤ v.x ∧ v.x ≤ b * effMaxFactor cfg) ∧
  (b * effMinFactor cfg ≤ v.y ∧ v.y ≤ b * effMaxFactor cfg) ∧
  (b * effMinFactor cfg ≤ v.z ∧ v.z ≤ b * effMaxFactor cfg)

/-! ### Placement/switch orchestrator, from `main.js` -/

/-- A `ModelSpec` from the configuration.  Model identifiers and layer
names are abstracted as naturals. -/
structure ModelConfig where
  id : ℕ
  targetSizeMeters : Option ℚ
  defaultScale : Option Vec3
  layers : List ℕ
deriving Repr, DecidableEq

/-- A renderable A-Frame entity as the orchestrator sees it: its
position/scale/rotation attributes, visibility, the `dataset.baseScale`
and `dataset.floorOffset` strings (absent until computed), and the parsed
Three.js mesh, represented by its intrinsic unit-scale bounding box
(absent until `model-loaded`). -/
structure Entity where
  position : Vec3
  scale : Vec3
  rotation : Vec3
  visible : Bool
  baseScale : Option ℚ
  floorOffset : Option ℚ
  mesh : Option Box3
deriving Repr, DecidableEq

/-- A `modelEntityCache` entry: the cached entity (by heap address), its
owning configuration, the readiness flag and the discovered layers. -/
structure CacheEntry where
  entityId : ℕ
  config : ModelConfig
  isReady : Bool
  layers : List ℕ
deriving Repr, DecidableEq

/-- The snapshot taken by `savePreviousModelState` for cancel-restore. -/
structure PrevState where
  modelId : ℕ
  config : Option ModelConfig
  wasPlaced : Bool
  position : Vec3
  scale : Vec3
  rotation : Vec3
deriving Repr, DecidableEq

/-- A stored `pendingSwitchInPlace` intent. -/
structure PendingSwitch where
  hitPosition : Vec3
  modelId : ℕ
deriving Repr, DecidableEq

/-- The orchestrator state in `main.js` (`WebARApp`), together with an
entity heap (addresses for the mutable A-Frame entities shared between
`currentModel` and the cache) and the AR-session state it drives. -/
structure AppState where
  entities : ℕ → Option Entity
  nextEntityId : ℕ
  cache : ℕ → Option CacheEntry
  currentModel : Option ℕ
  currentModelConfig : Option ModelConfig
  activeModelId : Option ℕ
  modelIsPlaced : Bool
  isModelLoading : Bool
  isRepositioning : Bool
  lastPlacedHitPosition : Option Vec3
  pendingSwitchInPlace : Option PendingSwitch
  previousModelState : Option PrevState
  loadingCancelled : Bool
  controlsEnabled : Bool
  galleryEnabled : Bool
  gestureTarget : Option ℕ
  ar : ARState

/-- Update the entity stored at address `k` in a heap. -/
def entUpd (h : ℕ → Option Entity) (k : ℕ) (f : Entity → Entity) :
    ℕ → Option Entity :=
  fun n => if n = k then (h n).map f else h n

/-- Store a fresh entity at address `k`. -/
def entSet (h : ℕ → Option Entity) (k : ℕ) (e : Entity) :
    ℕ → Option Entity :=
  fun n => if n = k then some e else h n

/-- Remove the entity at address `k` (`parentNode.removeChild`). -/
def entDel (h : ℕ → Option Entity) (k : ℕ) : ℕ → Option Entity :=
  fun n => if n = k then none else h n

/-- Update the cache entry for model id `k`. -/
def cacheUpd (h : ℕ → Option CacheEntry) (k : ℕ) (f : CacheEntry → CacheEntry) :
    ℕ → Option CacheEntry :=
  fun n => if n = k then (h n).map f else h n

/-- `modelEntityCache.set(k, c)`. -/
def cacheSet (h : ℕ → Option CacheEntry) (k : ℕ) (c : CacheEntry) :
    ℕ → Option CacheEntry :=
  fun n => if n = k then some c else h n

/-- `modelEntityCache.delete(k)`. -/
def cacheDel (h : ℕ → Option CacheEntry) (k : ℕ) : ℕ → Option CacheEntry :=
  fun n => if n = k then none else h n

/-- `parseFloat(entity.dataset.floorOffset) || 0` for the entity at `eid`. -/
def floorOffsetOf (s : AppState) (eid : ℕ) : ℚ :=
  match s.entities eid with
  | some e => jsOrQ e.floorOffset 0
  | none => 0

/-- `this.arSession.suppressPlacement`, `setReticleEnabled(true)` and
`setPlacementEnabled(true)` in sequence, the re-enable pattern used after
errors, cancel, reposition and load completion. -/
def arReenable (s : AppState) (now : ℚ) : AppState :=
  { s with ar := setPlacementEnabled (setReticleEnabled
      (suppressPlacement s.ar now 300) true) true }

/-- `setReticleEnabled(false)` followed by `setPlacementEnabled(false)`,
the pattern used right after a model is placed. -/
def arDisablePlacement (s : AppState) : AppState :=
  { s with ar := setPlacementEnabled (setReticleEnabled s.ar false) false }

/-- The snapshot value computed by `savePreviousModelState`: present only
when both `currentModel` and `activeModelId` are set. -/
def computePrevState (s : AppState) : Option PrevState :=
  match s.currentModel, s.activeModelId with
  | some eid, some mid =>
      match s.entities eid with
      | some e =>
          some { modelId := mid, config := s.currentModelConfig,
                 wasPlaced := s.modelIsPlaced, position := e.position,
                 scale := e.scale, rotation := e.rotation }
      | none => none
  | _, _ => none

/-- `savePreviousModelState`. -/
def savePreviousModelState (s : AppState) : AppState :=
  { s with previousModelState := computePrevState s }

/-- `hideCurrentModel`: detach gestures, hide the current entity (kept in
the cache) and reset `modelIsPlaced`. -/
def hideCurrentModel (s : AppState) : AppState :=
  match s.currentModel with
  | none => s
  | some eid =>
      { s with gestureTarget := none,
               entities := entUpd s.entities eid (fun e => { e with visible := false }),
               modelIsPlaced := false }

/-- The per-entity part of `activateCachedModel`: reset the entity to its
normalized base scale (when parsed and positive) and zero rotation, and
keep it hidden until placed. -/
def activateEntityFn (e : Entity) : Entity :=
  let b := e.baseScale.getD 0
  let e1 := if 0 < b then { e with scale := ⟨b, b, b⟩ } else e
  { e1 with rotation := ⟨0, 0, 0⟩, visible := false }

/-- `activateCachedModel`: point `currentModel` at the cached entity,
reset it to its normalized base scale (when positive) and zero rotation,
and keep it hidden. -/
def activateCachedModel (s : AppState) (mid : ℕ) (entry : CacheEntry) : AppState :=
  { s with currentModel := some entry.entityId,
           currentModelConfig := some entry.config,
           activeModelId := some mid,
           modelIsPlaced := false,
           entities := entUpd s.entities entry.entityId activateEntityFn }

/-- The truthy value of
`this.modelIsPlaced && this.lastPlacedHitPosition && !this.isRepositioning`
computed at the top of `onModelSelect`. -/
def switchIntent (s : AppState) : Option Vec3 :=
  if s.modelIsPlaced ∧ ¬ s.isRepositioning then s.lastPlacedHitPosition else none

/-- The non-cached tail of `onModelSelect`: snapshot, hide, record the
pending switch intent, reset the cancel flag, lock the UI, disable
placement, and start the load (second component `true`). -/
def startLoad (cfg : ModelConfig) (switchPos : Option Vec3) (s : AppState) :
    AppState × Bool :=
  let s1 := hideCurrentModel (savePreviousModelState s)
  let s2 := { s1 with
    pendingSwitchInPlace :=
      match switchPos with
      | some hp => some { hitPosition := hp, modelId := cfg.id }
      | none => none,
    loadingCancelled := false,
    isModelLoading := true,
    controlsEnabled := false,
    galleryEnabled := false }
  ({ s2 with ar := setPlacementEnabled s2.ar false }, true)

/-- The cached-and-ready block of `onModelSelect`: snapshot, hide the
current model, activate the cached entry, then either switch in place at
the stored hit position (plus the incoming model's own floor offset) or
await a placement tap with reticle/placement re-enabled. -/
def instantSwitchPath (cfg : ModelConfig) (entry : CacheEntry)
    (switchPos : Option Vec3) (now : ℚ) (s : AppState) : AppState :=
  let s3 := activateCachedModel (hideCurrentModel (savePreviousModelState s))
              cfg.id entry
  match switchPos with
  | some hp =>
      let f2 := floorOffsetOf s3 entry.entityId
      let s4 := { s3 with
        entities := entUpd s3.entities entry.entityId (fun e =>
          { e with position := ⟨hp.x, hp.y + f2, hp.z⟩, visible := true }),
        modelIsPlaced := true }
      { arDisablePlacement s4 with gestureTarget := some entry.entityId }
  | none => arReenable s3 now

/-- `onModelSelect`: gallery selection of `cfg` at time `now`.  The second
component records whether a network load was started. -/
def onModelSelect (cfg : ModelConfig) (now : ℚ) (s : AppState) :
    AppState × Bool :=
  if s.isModelLoading then (s, false)
  else
    let switchPos := switchIntent s
    match s.cache cfg.id with
    | some entry =>
        if entry.isReady then (instantSwitchPath cfg entry switchPos now s, false)
        else startLoad cfg switchPos s
    | none => startLoad cfg switchPos s

/-- The part of `loadAndCacheModel` that runs after the fetch resolves:
create the hidden entity at the default scale, make it current, and insert
a not-yet-ready cache entry. -/
def fetchSucceeded (cfg : ModelConfig) (s : AppState) : AppState :=
  let eid := s.nextEntityId
  let e : Entity :=
    { position := ⟨0, 0, 0⟩, scale := cfg.defaultScale.getD ⟨1, 1, 1⟩,
      rotation := ⟨0, 0, 0⟩, visible := false, baseScale := none,
      floorOffset := none, mesh := none }
  { s with entities := entSet s.entities eid e,
           nextEntityId := eid + 1,
           currentModel := some eid,
           currentModelConfig := some cfg,
           activeModelId := some cfg.id,
           cache := cacheSet s.cache cfg.id
             { entityId := eid, config := cfg, isReady := false, layers := [] } }

/-- The `catch` in `onModelSelect` for a failed fetch: unless the load was
cancelled, unlock the UI and re-enable reticle/placement under a fresh
suppression window. -/
def fetchFailed (now : ℚ) (s : AppState) : AppState :=
  if s.loadingCancelled then s
  else
    arReenable { s with isModelLoading := false, controlsEnabled := true,
                        galleryEnabled := true } now

/-- The per-entity part of the `model-loaded` handler: record the parsed
mesh; when a mesh exists and the measured bounds have a positive largest
dimension, apply the uniform normalization scale
`targetSizeMeters / largestDimension`, re-measure the bounds at the new
scale, and store the base scale and the clamped floor offset
`-scaledBounds.minY` in the entity's dataset. -/
def normalizeEntityFn (cfg : ModelConfig) (meshBox : Option Box3)
    (e : Entity) : Entity :=
  let e0 := { e with mesh := meshBox }
  match meshBox with
  | none => e0
  | some u =>
      let largest := largestDim (boxAtScale e0.scale u)
      if 0 < largest then
        let t := jsOrQ cfg.targetSizeMeters (1 / 2)
        let k := t / largest
        let scaledBox := boxAtScale ⟨k, k, k⟩ u
        { e0 with scale := ⟨k, k, k⟩, baseScale := some k,
                  floorOffset := some (clampOffset (- scaledBox.low.y)) }
      else e0

/-- The `model-loaded` handler registered in `loadAndCacheModel` for the
entity at `eid`: record the parsed mesh, normalize the scale from the
measured bounds and compute the clamped floor offset from the re-measured
scaled bounds, promote the cache entry to ready with the layer list,
unlock the UI unless cancelled, then either complete a pending
switch-in-place or re-enable reticle/placement under suppression. -/
def modelLoaded (cfg : ModelConfig) (eid : ℕ) (now : ℚ)
    (meshBox : Option Box3) (discoveredLayers : List ℕ) (s : AppState) :
    AppState :=
  let s1 := { s with entities := entUpd s.entities eid (normalizeEntityFn cfg meshBox) }
  let layers := if cfg.layers ≠ [] then cfg.layers else discoveredLayers
  let s2 := { s1 with cache := cacheUpd s1.cache cfg.id (fun c =>
    { c with isReady := true, layers := layers }) }
  let s3 :=
    if s2.loadingCancelled then s2
    else { s2 with isModelLoading := false, controlsEnabled := true,
                   galleryEnabled := true }
  match s3.pendingSwitchInPlace with
  | some ps =>
      if ps.modelId = cfg.id then
        let f := floorOffsetOf s3 eid
        let s4 := { s3 with
          entities := entUpd s3.entities eid (fun e =>
            { e with position := ⟨ps.hitPosition.x, ps.hitPosition.y + f,
                                  ps.hitPosition.z⟩,
                     visible := true }),
          modelIsPlaced := true }
        { arDisablePlacement s4 with gestureTarget := some eid,
                                     pendingSwitchInPlace := none }
      else arReenable s3 now
  | none => arReenable s3 now

/-- The `model-error` handler registered in `loadAndCacheModel`: evict the
failed cache entry; unless cancelled, unlock the UI.  Reticle, placement
and suppression are left untouched. -/
def modelError (cfg : ModelConfig) (s : AppState) : AppState :=
  let s1 := { s with cache := cacheDel s.cache cfg.id }
  if s1.loadingCancelled then s1
  else { s1 with isModelLoading := false, controlsEnabled := true,
                 galleryEnabled := true }

/-- `cancelModelLoading`: only meaningful while loading; discards a
partially created entity and its not-yet-ready cache entry, restores the
snapshotted previous model when one exists (visible with its saved
transform when it was placed), otherwise resets to idle; always unlocks
the UI and re-enables reticle/placement under suppression. -/
def cancelModelLoading (now : ℚ) (s : AppState) : AppState :=
  if ¬ s.isModelLoading then s
  else
    let s1 := { s with loadingCancelled := true }
    let s2 :=
      match s1.currentModel with
      | some eid =>
          let activeReady :=
            match s1.activeModelId with
            | some mid =>
                match s1.cache mid with
                | some c => c.isReady
                | none => false
            | none => false
          if activeReady then s1
          else
            let sA := { s1 with entities := entDel s1.entities eid }
            match sA.activeModelId with
            | some mid => { sA with cache := cacheDel sA.cache mid }
            | none => sA
      | none => s1
    let s3 :=
      match s2.previousModelState with
      | some prev =>
          match s2.cache prev.modelId with
          | some cached =>
              if cached.isReady then
                let sB := { s2 with currentModel := some cached.entityId,
                                    currentModelConfig := prev.config,
                                    activeModelId := some prev.modelId }
                if prev.wasPlaced then
                  { sB with
                    entities := entUpd sB.entities cached.entityId (fun e =>
                      { e with position := prev.position, scale := prev.scale,
                               rotation := prev.rotation, visible := true }),
                    modelIsPlaced := true,
                    gestureTarget := some cached.entityId }
                else sB
              else s2
          | none => s2
      | none => { s2 with currentModel := none, activeModelId := none }
    let s4 := arReenable { s3 with isModelLoading := false,
                                   controlsEnabled := true,
                                   galleryEnabled := true } now
    { s4 with previousModelState := none }

/-- `reloadModel` (the reposition button): only with a placed model and
neither loading nor already repositioning; hides the model, detaches
gestures and re-enables reticle/placement under suppression. -/
def reloadModel (now : ℚ) (s : AppState) : AppState :=
  match s.currentModel with
  | none => s
  | some eid =>
      if ¬ s.modelIsPlaced then s
      else if s.isModelLoading then s
      else if s.isRepositioning then s
      else
        arReenable
          { s with isRepositioning := true, modelIsPlaced := false,
                   gestureTarget := none,
                   entities := entUpd s.entities eid (fun e =>
                     { e with visible := false }) } now

/-- `onPlaceModel`: the tap-to-place callback with the raw hit position.
Guards: a current model must exist and its mesh must be parsed.  Applies
the floor offset to the hit Y, shows the model, records the raw hit as
`lastPlacedHitPosition`, disables reticle/placement, exits repositioning
and attaches gestures. -/
def onPlaceModel (p : Vec3) (s : AppState) : AppState :=
  match s.currentModel with
  | none => s
  | some eid =>
      match s.entities eid with
      | none => s
      | some e =>
          match e.mesh with
          | none => s
          | some _ =>
              let f := jsOrQ e.floorOffset 0
              let s1 := { s with
                entities := entUpd s.entities eid (fun e0 =>
                  { e0 with position := ⟨p.x, p.y + f, p.z⟩, visible := true }),
                modelIsPlaced := true,
                lastPlacedHitPosition := some ⟨p.x, p.y, p.z⟩ }
              { arDisablePlacement s1 with isRepositioning := false,
                                           gestureTarget := some eid }

/-! ### Concrete fixtures used to instantiate the theorems below -/

/-- An AR-session state with everything off, as right after placement. -/
def arOff : ARState :=
  { lastHitPosition := none, reticleEnabled := false, placementEnabled := false,
    placementSuppressedUntil := 0, markerVisible := false,
    markerPos := ⟨0, 0, 0⟩, surfaceDetected := false }

/-- An empty orchestrator state (fresh `WebARApp`). -/
def baseApp : AppState :=
  { entities := fun _ => none, nextEntityId := 0, cache := fun _ => none,
    currentModel := none, currentModelConfig := none, activeModelId := none,
    modelIsPlaced := false, isModelLoading := false, isRepositioning := false,
    lastPlacedHitPosition := none, pendingSwitchInPlace := none,
    previousModelState := none, loadingCancelled := false,
    controlsEnabled := true, galleryEnabled := true, gestureTarget := none,
    ar := arOff }

/-- A unit cube centred at the origin, used as a mesh box. -/
def unitCube : Box3 :=
  ⟨⟨-(1 / 2), -(1 / 2), -(1 / 2)⟩, ⟨1 / 2, 1 / 2, 1 / 2⟩⟩

/-- Model configuration with id 5 (an already-loaded model). -/
def cfgFive : ModelConfig :=
  { id := 5, targetSizeMeters := some (1 / 2), defaultScale := none, layers := [] }

/-- Model configuration with id 7 (the model being selected/loaded). -/
def cfgSeven : ModelConfig :=
  { id := 7, targetSizeMeters := some (1 / 2), defaultScale := none, layers := [] }

/-- Model configuration with id 9 (never cached in the fixtures). -/
def cfgNine : ModelConfig :=
  { id := 9, targetSizeMeters := some (1 / 2), defaultScale := none, layers := [] }

/-- A fully parsed entity for model 5, currently placed at `(1, 2, 3)`,
with floor offset `1/2`. -/
def entFive : Entity :=
  { position := ⟨1, 2, 3⟩, scale := ⟨1 / 4, 1 / 4, 1 / 4⟩,
    rotation := ⟨0, 0, 0⟩, visible := true, baseScale := some (1 / 4),
    floorOffset := some (1 / 2), mesh := some unitCube }

/-- A fully parsed cached entity for model 7, hidden, with floor offset
`3/10`. -/
def entSeven : Entity :=
  { position := ⟨0, 0, 0⟩, scale := ⟨1 / 4, 1 / 4, 1 / 4⟩,
    rotation := ⟨0, 0, 0⟩, visible := false, baseScale := some (1 / 4),
    floorOffset := some (3 / 10), mesh := some unitCube }

/-- State with model 5 active and placed (entity 0) and model 7 parsed and
cached (entity 1). -/
def appTwoCached : AppState :=
  { baseApp with
    entities := fun n => if n = 0 then some entFive
                         else if n = 1 then some entSeven else none,
    nextEntityId := 2,
    cache := fun n =>
      if n = 5 then some { entityId := 0, config := cfgFive, isReady := true, layers := [] }
      else if n = 7 then some { entityId := 1, config := cfgSeven, isReady := true, layers := [] }
      else none,
    currentModel := some 0,
    currentModelConfig := some cfgFive,
    activeModelId := some 5,
    modelIsPlaced := true,
    lastPlacedHitPosition := some ⟨1, 3 / 2, 3⟩ }

/-- State with model 5 active, parsed and cached but NOT placed (entity 0
hidden, awaiting a placement tap); model 7 is not cached. -/
def appActiveUnplaced : AppState :=
  { baseApp with
    entities := fun n => if n = 0 then some entFive else none,
    nextEntityId := 1,
    cache := fun n =>
      if n = 5 then some { entityId := 0, config := cfgFive, isReady := true, layers := [] }
      else none,
    currentModel := some 0,
    currentModelConfig := some cfgFive,
    activeModelId := some 5,
    modelIsPlaced := false }

/-- State in the middle of a load (`isModelLoading = true`). -/
def appLoading : AppState :=
  { appTwoCached with isModelLoading := true, controlsEnabled := false,
                      galleryEnabled := false }

/-- A freshly created (fetch done, not yet parsed) entity for model 7 with
default scale, as `loadAndCacheModel` creates it. -/
def entC6 : Entity :=
  { position := ⟨0, 0, 0⟩, scale := ⟨1, 1, 1⟩, rotation := ⟨0, 0, 0⟩,
    visible := false, baseScale := none, floorOffset := none, mesh := none }

def appC6 : AppState :=
  { baseApp with
    entities := fun n => if n = 0 then some entC6 else none,
    nextEntityId := 1,
    cache := fun n =>
      if n = 7 then some { entityId := 0, config := cfgSeven, isReady := false, layers := [] }
      else none,
    currentModel := some 0,
    currentModelConfig := some cfgSeven,
    activeModelId := some 7,
    isModelLoading := true, controlsEnabled := false, galleryEnabled := false }

/-- The mesh box of the specification's scenario example: height 2 is the
largest raw dimension and the scaled minimum Y works out to `-0.3`. -/
def exampleBox : Box3 :=
  ⟨⟨-(1 / 2), -(6 / 5), -(1 / 2)⟩, ⟨1 / 2, 4 / 5, 1 / 2⟩⟩

/-! ### Helper lemmas -/

theorem jsOrQ_some_zero (v : ℚ) : jsOrQ (some v) 0 = v := by
  unfold jsOrQ
  split <;> simp_all

theorem entUpd_self (h : ℕ → Option Entity) (k : ℕ) (f : Entity → Entity) :
    entUpd h k f k = (h k).map f := by
  simp [entUpd]

theorem entUpd_ne (h : ℕ → Option Entity) (k : ℕ) (f : Entity → Entity)
    (n : ℕ) (hn : n ≠ k) : entUpd h k f n = h n := by
  simp [entUpd, hn]

theorem entSet_self (h : ℕ → Option Entity) (k : ℕ) (e : Entity) :
    entSet h k e k = some e := by
  simp [entSet]

theorem entSet_ne (h : ℕ → Option Entity) (k : ℕ) (e : Entity)
    (n : ℕ) (hn : n ≠ k) : entSet h k e n = h n := by
  simp [entSet, hn]

theorem entDel_self (h : ℕ → Option Entity) (k : ℕ) : entDel h k k = none := by
  simp [entDel]

theorem entDel_ne (h : ℕ → Option Entity) (k : ℕ) (n : ℕ) (hn : n ≠ k) :
    entDel h k n = h n := by
  simp [entDel, hn]

theorem cacheUpd_self (h : ℕ → Option CacheEntry) (k : ℕ)
    (f : CacheEntry → CacheEntry) : cacheUpd h k f k = (h k).map f := by
  simp [cacheUpd]

theorem cacheUpd_ne (h : ℕ → Option CacheEntry) (k : ℕ)
    (f : CacheEntry → CacheEntry) (n : ℕ) (hn : n ≠ k) :
    cacheUpd h k f n = h n := by
  simp [cacheUpd, hn]

theorem cacheSet_self (h : ℕ → Option CacheEntry) (k : ℕ) (c : CacheEntry) :
    cacheSet h k c k = some c := by
  simp [cacheSet]

theorem cacheSet_ne (h : ℕ → Option CacheEntry) (k : ℕ) (c : CacheEntry)
    (n : ℕ) (hn : n ≠ k) : cacheSet h k c n = h n := by
  simp [cacheSet, hn]

theorem cacheDel_self (h : ℕ → Option CacheEntry) (k : ℕ) :
    cacheDel h k k = none := by
  simp [cacheDel]

theorem cacheDel_ne (h : ℕ → Option CacheEntry) (k : ℕ) (n : ℕ)
    (hn : n ≠ k) : cacheDel h k n = h n := by
  simp [cacheDel, hn]

theorem activateEntityFn_floorOffset (e : Entity) :
    (activateEntityFn e).floorOffset = e.floorOffset := by
  unfold activateEntityFn
  by_cases h : 0 < e.baseScale.getD 0 <;> simp [h]

theorem instantSwitchPath_entity (cfg : ModelConfig) (entry : CacheEntry)
    (hp : Vec3) (now : ℚ) (s : AppState) (cid : ℕ) (eB' : Entity)
    (hcur : s.currentModel = some cid)
    (hB' : s.entities entry.entityId = some eB') :
    ((instantSwitchPath cfg entry (some hp) now s).entities entry.entityId).map
        Entity.position = some ⟨hp.x, hp.y + jsOrQ eB'.floorOffset 0, hp.z⟩ ∧
    ((instantSwitchPath cfg entry (some hp) now s).entities entry.entityId).map
        Entity.visible = some true := by
  unfold instantSwitchPath activateCachedModel hideCurrentModel
    savePreviousModelState floorOffsetOf arDisablePlacement
  simp only [hcur]
  by_cases hA : entry.entityId = cid
  · rw [hA] at hB'
    simp [entUpd, hA, hB', activateEntityFn_floorOffset]
  · simp [entUpd, hA, hB', activateEntityFn_floorOffset]

theorem normalizeEntityFn_some (cfg : ModelConfig) (u : Box3) (e : Entity)
    (k : ℚ) (hdpos : 0 < largestDim (boxAtScale e.scale u))
    (hk : k = jsOrQ cfg.targetSizeMeters (1 / 2) /
              largestDim (boxAtScale e.scale u)) :
    normalizeEntityFn cfg (some u) e
      = { e with mesh := some u, scale := ⟨k, k, k⟩, baseScale := some k,
                 floorOffset := some (clampOffset
                   (- (boxAtScale ⟨k, k, k⟩ u).low.y)) } := by
  subst hk
  unfold normalizeEntityFn
  dsimp only
  rw [if_pos hdpos]

theorem modelLoaded_entities_no_pending (cfg : ModelConfig) (eid : ℕ)
    (now : ℚ) (mb : Option Box3) (dl : List ℕ) (s : AppState)
    (hpend : s.pendingSwitchInPlace = none) :
    (modelLoaded cfg eid now mb dl s).entities
      = entUpd s.entities eid (normalizeEntityFn cfg mb) := by
  unfold modelLoaded arReenable
  by_cases hlc : s.loadingCancelled <;> simp [hlc, hpend]

theorem onPlaceModel_entity (q : Vec3) (s : AppState) (cid : ℕ) (e : Entity)
    (u : Box3) (hcur : s.currentModel = some cid)
    (hent : s.entities cid = some e) (hmesh : e.mesh = some u) :
    (onPlaceModel q s).entities cid
      = some { e with position := ⟨q.x, q.y + jsOrQ e.floorOffset 0, q.z⟩,
                      visible := true } := by
  simp only [onPlaceModel, hcur, hent, hmesh, arDisablePlacement] <;>
    simp [entUpd, hent, hmesh]

/-! ### Claim theorems -/

/-- Claim C2: if a frame yields zero hit-test results, the stored
last-known-hit position is `none` immediately after that frame, and a tap
arriving right after such a frame never triggers a placement (so it can
never use a hit position recorded before that frame). -/
theorem no_stale_hit_after_empty_frame (s : ARState) :
    (onXRFrame s []).lastHitPosition = none ∧
    ∀ t : ℚ, onSelect (onXRFrame s []) t = none := by
  refine ⟨rfl, fun t => ?_⟩
  cases hB : s.placementEnabled <;> simp [onXRFrame, onSelect, hB]

/-- Claim C3: the tap handler is exactly the decision procedure stated by
the specification: taps are dropped when placement is disabled or the tap
precedes the suppression deadline; otherwise the last known hit is used;
otherwise the visible reticle marker's transform; otherwise the tap is
ignored. -/
theorem tap_handling_matches_decision_procedure (s : ARState) (t : ℚ) :
    onSelect s t = onSelectClaim s t := by
  cases hB : s.placementEnabled <;> simp [onSelect, onSelectClaim, hB]

theorem handleScale_preserves_bounds (cfg : ScaleConfig) (b : ℚ)
    (hmin : effMinFactor cfg ≤ 1) (hmax : 1 ≤ effMaxFactor cfg) (hb : 0 ≤ b)
    (g : PinchState) (hg : pinchInBounds cfg b g.scale) (d : ℚ) :
    pinchInBounds cfg b (handleScale cfg b g d).scale := by
  have hms : b * effMinFactor cfg ≤ b * effMaxFactor cfg :=
    mul_le_mul_of_nonneg_left (hmin.trans hmax) hb
  unfold handleScale
  split
  · exact hg
  · refine ⟨⟨le_max_left _ _, ?_⟩, ⟨le_max_left _ _, ?_⟩, ⟨le_max_left _ _, ?_⟩⟩ <;>
      exact max_le hms (min_le_left _ _)

theorem pinch_fold_preserves_bounds (cfg : ScaleConfig) (b : ℚ)
    (hmin : effMinFactor cfg ≤ 1) (hmax : 1 ≤ effMaxFactor cfg) (hb : 0 ≤ b)
    (ds : List ℚ) (g : PinchState) (hg : pinchInBounds cfg b g.scale) :
    pinchInBounds cfg b ((ds.foldl (handleScale cfg b) g).scale) := by
  induction ds generalizing g with
  | nil => exact hg
  | cons d ds ih =>
      exact ih _ (handleScale_preserves_bounds cfg b hmin hmax hb g hg d)

/-- Claim C7: starting from an attach that captured base scale `b`,
every sequence of two-finger pinch updates — each multiplying the current
scale by `1 + (ratio - 1) * speed` — leaves the uniform scale within
`[b * minFactor, b * maxFactor]`, however extreme the raw finger-distance
ratios are. -/
theorem pinch_scale_stays_clamped (cfg : ScaleConfig) (b d0 : ℚ)
    (ds : List ℚ)
    (hmin : effMinFactor cfg ≤ 1) (hmax : 1 ≤ effMaxFactor cfg)
    (hb : 0 ≤ b) :
    pinchInBounds cfg b
      ((ds.foldl (handleScale cfg b) (attachPinchState b d0)).scale) := by
  apply pinch_fold_preserves_bounds cfg b hmin hmax hb
  have h1 : b * effMinFactor cfg ≤ b := by
    calc b * effMinFactor cfg ≤ b * 1 := mul_le_mul_of_nonneg_left hmin hb
    _ = b := mul_one b
  have h2 : b ≤ b * effMaxFactor cfg := by
    calc b = b * 1 := (mul_one b).symm
    _ ≤ b * effMaxFactor cfg := mul_le_mul_of_nonneg_left hmax hb
  exact ⟨⟨h1, h2⟩, ⟨h1, h2⟩, ⟨h1, h2⟩⟩

/-- Witness for C7 at the specification's scenario numbers: base scale
`0.25`, initial finger distance `100`, one update to distance `150`
(ratio `1.5`), shipped configuration. -/
theorem pinch_scale_stays_clamped_witness :
    effMinFactor configScale ≤ 1 ∧ 1 ≤ effMaxFactor configScale ∧
    (0 : ℚ) ≤ 1 / 4 ∧
    pinchInBounds configScale (1 / 4)
      ((([150] : List ℚ).foldl (handleScale configScale (1 / 4))
        (attachPinchState (1 / 4) 100)).scale) :=
  ⟨by norm_num [effMinFactor, configScale, jsOrQ],
   by norm_num [effMaxFactor, configScale, jsOrQ],
   by norm_num,
   pinch_scale_stays_clamped configScale (1 / 4) 100 [150]
     (by norm_num [effMinFactor, configScale, jsOrQ])
     (by norm_num [effMaxFactor, configScale, jsOrQ])
     (by norm_num)⟩

/-- Claim C5: while `isModelLoading` is true, a gallery selection is a
complete no-op (state unchanged, no load started) and a reload/reposition
request is a complete no-op, so at most one load is ever in flight. -/
theorem loading_gate_blocks_ui_actions (cfg : ModelConfig) (now : ℚ)
    (s : AppState) (h : s.isModelLoading = true) :
    onModelSelect cfg now s = (s, false) ∧ reloadModel now s = s := by
  constructor
  · simp [onModelSelect, h]
  · cases hc : s.currentModel with
    | none => simp [reloadModel, hc]
    | some eid =>
        by_cases hp : s.modelIsPlaced <;> simp [reloadModel, hc, hp, h]

/-- Witness for C5: a concrete in-flight-load state. -/
theorem loading_gate_blocks_ui_actions_witness :
    appLoading.isModelLoading = true ∧
    (onModelSelect cfgSeven 0 appLoading = (appLoading, false) ∧
     reloadModel 0 appLoading = appLoading) :=
  ⟨rfl, loading_gate_blocks_ui_actions cfgSeven 0 appLoading rfl⟩

/-- Claim C8: selecting a model whose cache entry exists and is ready
starts no network fetch; the cached entity is reactivated as the current
model immediately. -/
theorem cached_model_select_no_fetch (cfg : ModelConfig) (now : ℚ)
    (s : AppState) (entry : CacheEntry)
    (hload : s.isModelLoading = false)
    (hc : s.cache cfg.id = some entry) (hr : entry.isReady = true) :
    (onModelSelect cfg now s).2 = false ∧
    ((onModelSelect cfg now s).1).currentModel = some entry.entityId ∧
    ((onModelSelect cfg now s).1).activeModelId = some cfg.id := by
  cases hsw : switchIntent s with
  | none =>
      simp [onModelSelect, instantSwitchPath, hload, hc, hr, hsw,
        activateCachedModel, arReenable]
  | some hp =>
      simp [onModelSelect, instantSwitchPath, hload, hc, hr, hsw,
        activateCachedModel, arDisablePlacement]

/-- Witness for C8: reselecting the ready cached model 7. -/
theorem cached_model_select_no_fetch_witness :
    appTwoCached.isModelLoading = false ∧
    ((onModelSelect cfgSeven 0 appTwoCached).2 = false ∧
     ((onModelSelect cfgSeven 0 appTwoCached).1).currentModel = some 1 ∧
     ((onModelSelect cfgSeven 0 appTwoCached).1).activeModelId = some 7) :=
  ⟨rfl, cached_model_select_no_fetch cfgSeven 0 appTwoCached
    { entityId := 1, config := cfgSeven, isReady := true, layers := [] }
    rfl rfl rfl⟩

/-- Claim C10: `lastPlacedHitPosition` is written only by tap-to-place.
Every other modeled operation — gallery selection (both the instant
switch-in-place path and the load-start path), the `model-loaded` handler
(including the pending-switch completion), fetch success/failure, parse
error, cancel and reposition — leaves it unchanged, and `onPlaceModel`
either records exactly the raw hit or leaves the state untouched. -/
theorem last_hit_written_only_by_place :
    (∀ (cfg : ModelConfig) (now : ℚ) (s : AppState),
      ((onModelSelect cfg now s).1).lastPlacedHitPosition =
        s.lastPlacedHitPosition) ∧
    (∀ (cfg : ModelConfig) (eid : ℕ) (now : ℚ) (mb : Option Box3)
        (dl : List ℕ) (s : AppState),
      (modelLoaded cfg eid now mb dl s).lastPlacedHitPosition =
        s.lastPlacedHitPosition) ∧
    (∀ (cfg : ModelConfig) (s : AppState),
      (fetchSucceeded cfg s).lastPlacedHitPosition = s.lastPlacedHitPosition) ∧
    (∀ (now : ℚ) (s : AppState),
      (fetchFailed now s).lastPlacedHitPosition = s.lastPlacedHitPosition) ∧
    (∀ (cfg : ModelConfig) (s : AppState),
      (modelError cfg s).lastPlacedHitPosition = s.lastPlacedHitPosition) ∧
    (∀ (now : ℚ) (s : AppState),
      (cancelModelLoading now s).lastPlacedHitPosition =
        s.lastPlacedHitPosition) ∧
    (∀ (now : ℚ) (s : AppState),
      (reloadModel now s).lastPlacedHitPosition = s.lastPlacedHitPosition) ∧
    (∀ (p : Vec3) (s : AppState),
      (onPlaceModel p s).lastPlacedHitPosition = some ⟨p.x, p.y, p.z⟩ ∨
      onPlaceModel p s = s) := by
  refine ⟨?_, ?_, ?_, ?_, ?_, ?_, ?_, ?_⟩
  · intro cfg now s
    unfold onModelSelect instantSwitchPath startLoad activateCachedModel
      activateEntityFn hideCurrentModel savePreviousModelState arReenable
      arDisablePlacement
    dsimp only
    repeat' split
    all_goals rfl
  · intro cfg eid now mb dl s
    unfold modelLoaded normalizeEntityFn arReenable arDisablePlacement
    dsimp only
    repeat' split
    all_goals rfl
  · intro cfg s
    rfl
  · intro now s
    unfold fetchFailed arReenable
    dsimp only
    repeat' split
    all_goals rfl
  · intro cfg s
    unfold modelError
    dsimp only
    repeat' split
    all_goals rfl
  · intro now s
    unfold cancelModelLoading arReenable
    dsimp only
    repeat' split
    all_goals rfl
  · intro now s
    unfold reloadModel arReenable
    dsimp only
    repeat' split
    all_goals rfl
  · intro p s
    unfold onPlaceModel arDisablePlacement
    dsimp only
    repeat' split
    all_goals simp

/-- Claim C9 (amended): when not cancelled, every load-failure path resets
`isModelLoading` and re-enables the UI controls; the fetch-failure path
additionally re-enables reticle and placement under a fresh suppression
window, while the parse-failure path (`model-error`) evicts the failed
cache entry and leaves the AR reticle/placement/suppression state exactly
as it was (placement stays disabled, as during the load). -/
theorem load_failure_cleanup (s : AppState) (cfg : ModelConfig) (now : ℚ)
    (h : s.loadingCancelled = false) :
    ((fetchFailed now s).isModelLoading = false ∧
     (fetchFailed now s).controlsEnabled = true ∧
     (fetchFailed now s).galleryEnabled = true ∧
     (fetchFailed now s).ar.placementEnabled = true ∧
     (fetchFailed now s).ar.reticleEnabled = true ∧
     (fetchFailed now s).ar.placementSuppressedUntil = now + 300) ∧
    ((modelError cfg s).isModelLoading = false ∧
     (modelError cfg s).controlsEnabled = true ∧
     (modelError cfg s).galleryEnabled = true ∧
     (modelError cfg s).cache cfg.id = none ∧
     (modelError cfg s).ar = s.ar) := by
  constructor
  · simp [fetchFailed, h, arReenable, suppressPlacement, setReticleEnabled,
      setPlacementEnabled]
  · simp [modelError, h, cacheDel]

/-- Witness for C9 (amended) at a concrete mid-load state. -/
theorem load_failure_cleanup_witness :
    appC6.loadingCancelled = false ∧
    (((fetchFailed 40 appC6).isModelLoading = false ∧
      (fetchFailed 40 appC6).controlsEnabled = true ∧
      (fetchFailed 40 appC6).galleryEnabled = true ∧
      (fetchFailed 40 appC6).ar.placementEnabled = true ∧
      (fetchFailed 40 appC6).ar.reticleEnabled = true ∧
      (fetchFailed 40 appC6).ar.placementSuppressedUntil = 40 + 300) ∧
     ((modelError cfgSeven appC6).isModelLoading = false ∧
      (modelError cfgSeven appC6).controlsEnabled = true ∧
      (modelError cfgSeven appC6).galleryEnabled = true ∧
      (modelError cfgSeven appC6).cache cfgSeven.id = none ∧
      (modelError cfgSeven appC6).ar = appC6.ar)) :=
  ⟨rfl, load_failure_cleanup appC6 cfgSeven 40 rfl⟩

/-- Counterexample to C9 as stated: a reachable parse failure (select a
non-cached model while one is active but unplaced, fetch succeeds, parse
fails).  The cleanup runs (`isModelLoading` cleared, controls re-enabled),
but — contrary to the claim — placement remains disabled and no fresh
suppression window is applied, so the state does not fall back to
awaiting placement. -/
theorem parse_failure_leaves_placement_disabled :
    (modelError cfgSeven (fetchSucceeded cfgSeven
        (onModelSelect cfgSeven 0 appActiveUnplaced).1)).isModelLoading
      = false ∧
    (modelError cfgSeven (fetchSucceeded cfgSeven
        (onModelSelect cfgSeven 0 appActiveUnplaced).1)).controlsEnabled
      = true ∧
    (modelError cfgSeven (fetchSucceeded cfgSeven
        (onModelSelect cfgSeven 0 appActiveUnplaced).1)).ar.placementEnabled
      = false ∧
    (modelError cfgSeven (fetchSucceeded cfgSeven
        (onModelSelect cfgSeven 0 appActiveUnplaced).1)).ar.placementSuppressedUntil
      = 0 := by
  refine ⟨rfl, rfl, rfl, rfl⟩

/-- Claim C1: tap-to-place stores the raw, pre-offset hit position, and a
subsequent selection of an already-ready cached model B places B at the
raw hit with B's own floor offset added to Y — the previous model's
offset never leaks in. -/
theorem switch_in_place_uses_incoming_floor_offset
    (s0 : AppState) (cfg : ModelConfig) (p : Vec3) (now : ℚ)
    (eid : ℕ) (e : Entity) (entry : CacheEntry) (eB : Entity) (u : Box3)
    (hcur : s0.currentModel = some eid)
    (hent : s0.entities eid = some e)
    (hmesh : e.mesh = some u)
    (hload : s0.isModelLoading = false)
    (hc : s0.cache cfg.id = some entry)
    (hr : entry.isReady = true)
    (hB : s0.entities entry.entityId = some eB) :
    (onPlaceModel p s0).lastPlacedHitPosition = some ⟨p.x, p.y, p.z⟩ ∧
    ∃ e2,
      ((onModelSelect cfg now (onPlaceModel p s0)).1).entities entry.entityId
        = some e2 ∧
      e2.position = ⟨p.x, p.y + jsOrQ eB.floorOffset 0, p.z⟩ ∧
      e2.visible = true := by
  have hplace : onPlaceModel p s0 = { s0 with
      entities := entUpd s0.entities eid (fun e0 =>
        { e0 with position := ⟨p.x, p.y + jsOrQ e.floorOffset 0, p.z⟩,
                  visible := true }),
      modelIsPlaced := true,
      lastPlacedHitPosition := some ⟨p.x, p.y, p.z⟩,
      isRepositioning := false,
      gestureTarget := some eid,
      ar := setPlacementEnabled (setReticleEnabled s0.ar false) false } := by
    simp only [onPlaceModel, arDisablePlacement, hcur, hent, hmesh]
  refine ⟨by rw [hplace], ?_⟩
  have hsel : (onModelSelect cfg now (onPlaceModel p s0)).1
      = instantSwitchPath cfg entry (some ⟨p.x, p.y, p.z⟩) now
          (onPlaceModel p s0) := by
    rw [hplace]
    simp [onModelSelect, switchIntent, hload, hc, hr]
  have hcur1 : (onPlaceModel p s0).currentModel = some eid := by
    rw [hplace]
    exact hcur
  have hB1 : ∃ eB1 : Entity,
      (onPlaceModel p s0).entities entry.entityId = some eB1 ∧
      eB1.floorOffset = eB.floorOffset := by
    rw [hplace]
    by_cases hA : entry.entityId = eid
    · have hB2 := hB
      rw [hA, hent] at hB2
      injection hB2 with heq
      refine ⟨{ e with position := ⟨p.x, p.y + jsOrQ e.floorOffset 0, p.z⟩,
                       visible := true }, ?_, by rw [heq]⟩
      simp [entUpd, hA, hent]
    · exact ⟨eB, by simp [entUpd, hA, hB], rfl⟩
  obtain ⟨eB1, hlk1, hfo1⟩ := hB1
  obtain ⟨hpos, hvis⟩ := instantSwitchPath_entity cfg entry ⟨p.x, p.y, p.z⟩ now
    (onPlaceModel p s0) eid eB1 hcur1 hlk1
  rw [hsel]
  rw [Option.map_eq_some'] at hpos hvis
  obtain ⟨e2, hlk2, hp2⟩ := hpos
  obtain ⟨e2', hlk2', hv2⟩ := hvis
  rw [hlk2] at hlk2'
  injection hlk2' with he2
  refine ⟨e2, hlk2, ?_, ?_⟩
  · rw [hp2]
    simp [hfo1]
  · rw [he2]
    exact hv2

/-- Witness for C1: model 5 placed at raw hit `(1, 0, -2)` (own floor
offset `1/2`), then the cached model 7 (floor offset `3/10`) selected. -/
theorem switch_in_place_uses_incoming_floor_offset_witness :
    appTwoCached.currentModel = some 0 ∧
    appTwoCached.cache cfgSeven.id
      = some { entityId := 1, config := cfgSeven, isReady := true, layers := [] } ∧
    ((onPlaceModel ⟨1, 0, -2⟩ appTwoCached).lastPlacedHitPosition
        = some ⟨1, 0, -2⟩ ∧
     ∃ e2,
       ((onModelSelect cfgSeven 99
           (onPlaceModel ⟨1, 0, -2⟩ appTwoCached)).1).entities 1 = some e2 ∧
       e2.position = ⟨1, 0 + jsOrQ entSeven.floorOffset 0, -2⟩ ∧
       e2.visible = true) :=
  ⟨rfl, rfl,
   switch_in_place_uses_incoming_floor_offset appTwoCached cfgSeven ⟨1, 0, -2⟩
     99 0 entFive
     { entityId := 1, config := cfgSeven, isReady := true, layers := [] }
     entSeven unitCube rfl rfl rfl rfl rfl rfl rfl⟩

/-- Claim C6: on first successful parse with positive largest measured
dimension `d` and target size `t`, the applied uniform scale factor is
`t / d`; the floor offset is `-scaledBounds.minY` computed from the
bounds re-measured after scaling, clamped in magnitude to 5 while
preserving sign; placing the model at a hit `q` then yields position
`(q.x, q.y + floorOffset, q.z)`. -/
theorem scale_normalization_and_floor_offset
    (s : AppState) (cfg : ModelConfig) (eid : ℕ) (now : ℚ) (u : Box3)
    (dl : List ℕ) (e : Entity) (d t : ℚ)
    (hcur : s.currentModel = some eid)
    (hent : s.entities eid = some e)
    (hpend : s.pendingSwitchInPlace = none)
    (hd : d = largestDim (boxAtScale e.scale u))
    (hdpos : 0 < d)
    (ht : t = jsOrQ cfg.targetSizeMeters (1 / 2)) :
    (∃ e1, (modelLoaded cfg eid now (some u) dl s).entities eid = some e1 ∧
       e1.scale = ⟨t / d, t / d, t / d⟩ ∧
       e1.baseScale = some (t / d) ∧
       e1.floorOffset = some (clampOffset
         (- (boxAtScale ⟨t / d, t / d, t / d⟩ u).low.y))) ∧
    (∀ q : Vec3, ∃ e2,
       (onPlaceModel q (modelLoaded cfg eid now (some u) dl s)).entities eid
         = some e2 ∧
       e2.position = ⟨q.x, q.y + clampOffset
         (- (boxAtScale ⟨t / d, t / d, t / d⟩ u).low.y), q.z⟩ ∧
       e2.visible = true) := by
  subst hd
  subst ht
  have hents := modelLoaded_entities_no_pending cfg eid now (some u) dl s hpend
  have hnorm := normalizeEntityFn_some cfg u e _ hdpos rfl
  have hlook : (modelLoaded cfg eid now (some u) dl s).entities eid
      = some (normalizeEntityFn cfg (some u) e) := by
    rw [hents, entUpd_self, hent]
    rfl
  rw [hnorm] at hlook
  refine ⟨⟨_, hlook, rfl, rfl, rfl⟩, ?_⟩
  intro q
  have hcurM : (modelLoaded cfg eid now (some u) dl s).currentModel
      = some eid := by
    unfold modelLoaded arReenable
    by_cases hlc : s.loadingCancelled <;> simp [hlc, hpend, hcur]
  have hp := onPlaceModel_entity q (modelLoaded cfg eid now (some u) dl s)
    eid _ u hcurM hlook rfl
  refine ⟨_, hp, ?_, rfl⟩
  simp [jsOrQ_some_zero]

/-- Witness for C6 at the specification's scenario numbers: target size
`0.5`, measured raw bounds with largest dimension (height) `2.0`, so the
scale factor is `0.25`; the post-scale minimum Y is `-0.3`, so the floor
offset is `0.3`, and placing at hit `(1, 0, -2)` yields `(1, 0.3, -2)`. -/
theorem scale_normalization_and_floor_offset_witness :
    ((0 : ℚ) < 2 ∧
     (1 : ℚ) / 2 / 2 = 1 / 4 ∧
     clampOffset (- (boxAtScale ⟨1 / 2 / 2, 1 / 2 / 2, 1 / 2 / 2⟩
       exampleBox).low.y) = 3 / 10) ∧
    ((∃ e1, (modelLoaded cfgSeven 0 50 (some exampleBox) [] appC6).entities 0
          = some e1 ∧
       e1.scale = ⟨1 / 2 / 2, 1 / 2 / 2, 1 / 2 / 2⟩ ∧
       e1.baseScale = some (1 / 2 / 2) ∧
       e1.floorOffset = some (clampOffset
         (- (boxAtScale ⟨1 / 2 / 2, 1 / 2 / 2, 1 / 2 / 2⟩ exampleBox).low.y))) ∧
     (∀ q : Vec3, ∃ e2,
       (onPlaceModel q (modelLoaded cfgSeven 0 50 (some exampleBox) []
           appC6)).entities 0 = some e2 ∧
       e2.position = ⟨q.x, q.y + clampOffset
         (- (boxAtScale ⟨1 / 2 / 2, 1 / 2 / 2, 1 / 2 / 2⟩ exampleBox).low.y),
         q.z⟩ ∧
       e2.visible = true)) :=
  ⟨⟨by norm_num,
    by norm_num,
    by norm_num [clampOffset, rsign, boxAtScale, exampleBox, abs, min_def]⟩,
   scale_normalization_and_floor_offset appC6 cfgSeven 0 50 exampleBox []
     entC6 2 (1 / 2) rfl rfl rfl
     (by norm_num [largestDim, boxAtScale, boxSize, exampleBox, entC6])
     (by norm_num)
     (by norm_num [jsOrQ, cfgSeven])⟩

theorem cancelModelLoading_restore (σ : AppState) (now : ℚ) (ne aid : ℕ)
    (centry : CacheEntry) (prev : PrevState) (cached : CacheEntry)
    (ePrev : Entity)
    (ha : σ.isModelLoading = true)
    (hcm : σ.currentModel = some ne)
    (ham : σ.activeModelId = some aid)
    (hnrc : σ.cache aid = some centry)
    (hnotready : centry.isReady = false)
    (hprev : σ.previousModelState = some prev)
    (hne : prev.modelId ≠ aid)
    (hcache : σ.cache prev.modelId = some cached)
    (hready : cached.isReady = true)
    (hwp : prev.wasPlaced = true)
    (hentc : cached.entityId ≠ ne)
    (hentity : σ.entities cached.entityId = some ePrev) :
    (cancelModelLoading now σ).currentModel = some cached.entityId ∧
    (cancelModelLoading now σ).activeModelId = some prev.modelId ∧
    (cancelModelLoading now σ).modelIsPlaced = true ∧
    (∃ e3, (cancelModelLoading now σ).entities cached.entityId = some e3 ∧
      e3.position = prev.position ∧ e3.scale = prev.scale ∧
      e3.rotation = prev.rotation ∧ e3.visible = true) ∧
    (cancelModelLoading now σ).entities ne = none ∧
    (cancelModelLoading now σ).cache aid = none := by
  simp only [cancelModelLoading, ha, hcm, ham, hnrc, hnotready, hprev,
    arReenable]
  simp [cacheDel, hne, hcache, hready, hwp, entUpd, entDel, hentc, hentity]

theorem cancelModelLoading_reset_idle (σ : AppState) (now : ℚ) (ne aid : ℕ)
    (centry : CacheEntry)
    (ha : σ.isModelLoading = true)
    (hcm : σ.currentModel = some ne)
    (ham : σ.activeModelId = some aid)
    (hnrc : σ.cache aid = some centry)
    (hnotready : centry.isReady = false)
    (hprev : σ.previousModelState = none) :
    (cancelModelLoading now σ).currentModel = none ∧
    (cancelModelLoading now σ).activeModelId = none ∧
    (cancelModelLoading now σ).modelIsPlaced = σ.modelIsPlaced ∧
    (cancelModelLoading now σ).entities ne = none ∧
    (cancelModelLoading now σ).cache aid = none := by
  simp only [cancelModelLoading, ha, hcm, ham, hnrc, hnotready, hprev,
    arReenable]
  simp [cacheDel, entDel]

/-- Claim C4 (amended): cancelling a load that was started while a model
was placed at transform T restores that model visible at T with
`modelIsPlaced = true`; cancelling a load started when no model was
active (so no snapshot existed) resets to idle (no current model, no
active model id); in both cases the partially loaded entity and its
not-yet-ready cache entry are discarded.  (A load started with an active
but unplaced model restores that model as active rather than resetting
to idle — see the counterexample to the unamended claim.) -/
theorem cancel_restores_previous_state :
    (∀ (s0 : AppState) (cfg : ModelConfig) (now1 now2 : ℚ) (eid mid : ℕ)
       (e : Entity) (ment : CacheEntry),
       s0.currentModel = some eid → s0.activeModelId = some mid →
       s0.entities eid = some e → s0.modelIsPlaced = true →
       s0.isModelLoading = false →
       s0.cache mid = some ment → ment.isReady = true → ment.entityId = eid →
       s0.cache cfg.id = none → s0.entities s0.nextEntityId = none →
       ((cancelModelLoading now2 (fetchSucceeded cfg
           (onModelSelect cfg now1 s0).1)).currentModel = some eid ∧
        (cancelModelLoading now2 (fetchSucceeded cfg
           (onModelSelect cfg now1 s0).1)).activeModelId = some mid ∧
        (cancelModelLoading now2 (fetchSucceeded cfg
           (onModelSelect cfg now1 s0).1)).modelIsPlaced = true ∧
        (∃ e3, (cancelModelLoading now2 (fetchSucceeded cfg
            (onModelSelect cfg now1 s0).1)).entities eid = some e3 ∧
          e3.position = e.position ∧ e3.scale = e.scale ∧
          e3.rotation = e.rotation ∧ e3.visible = true) ∧
        (cancelModelLoading now2 (fetchSucceeded cfg
           (onModelSelect cfg now1 s0).1)).entities s0.nextEntityId = none ∧
        (cancelModelLoading now2 (fetchSucceeded cfg
           (onModelSelect cfg now1 s0).1)).cache cfg.id = none)) ∧
    (∀ (s0 : AppState) (cfg : ModelConfig) (now1 now2 : ℚ),
       s0.currentModel = none → s0.modelIsPlaced = false →
       s0.isModelLoading = false → s0.cache cfg.id = none →
       ((cancelModelLoading now2 (fetchSucceeded cfg
           (onModelSelect cfg now1 s0).1)).currentModel = none ∧
        (cancelModelLoading now2 (fetchSucceeded cfg
           (onModelSelect cfg now1 s0).1)).activeModelId = none ∧
        (cancelModelLoading now2 (fetchSucceeded cfg
           (onModelSelect cfg now1 s0).1)).modelIsPlaced = false ∧
        (cancelModelLoading now2 (fetchSucceeded cfg
           (onModelSelect cfg now1 s0).1)).entities s0.nextEntityId = none ∧
        (cancelModelLoading now2 (fetchSucceeded cfg
           (onModelSelect cfg now1 s0).1)).cache cfg.id = none)) := by
  constructor
  · intro s0 cfg now1 now2 eid mid e ment h1 h2 h3 h4 h5 h6 h7 h8 h9 h10
    have hmidne : mid ≠ cfg.id := by
      intro hEq
      rw [hEq, h9] at h6
      cases h6
    have heidne : eid ≠ s0.nextEntityId := by
      intro hEq
      rw [hEq, h10] at h3
      cases h3
    obtain ⟨r1, r2, r3, r4, r5, r6⟩ := cancelModelLoading_restore
      (fetchSucceeded cfg (onModelSelect cfg now1 s0).1) now2
      s0.nextEntityId cfg.id
      { entityId := s0.nextEntityId, config := cfg, isReady := false,
        layers := [] }
      { modelId := mid, config := s0.currentModelConfig, wasPlaced := true,
        position := e.position, scale := e.scale, rotation := e.rotation }
      ment { e with visible := false }
      (by simp [fetchSucceeded, onModelSelect, startLoad, hideCurrentModel,
        savePreviousModelState, h5, h9, h1])
      (by simp [fetchSucceeded, onModelSelect, startLoad, hideCurrentModel,
        savePreviousModelState, h5, h9, h1])
      (by simp [fetchSucceeded, onModelSelect, startLoad, hideCurrentModel,
        savePreviousModelState, h5, h9, h1])
      (by simp [fetchSucceeded, onModelSelect, startLoad, hideCurrentModel,
        savePreviousModelState, h5, h9, h1, cacheSet])
      rfl
      (by simp [fetchSucceeded, onModelSelect, startLoad, hideCurrentModel,
        savePreviousModelState, computePrevState, h5, h9, h1, h2, h3, h4])
      hmidne
      (by simp [fetchSucceeded, onModelSelect, startLoad, hideCurrentModel,
        savePreviousModelState, h5, h9, h1, cacheSet, hmidne, h6])
      h7
      rfl
      (by rw [h8]; exact heidne)
      (by rw [h8]
          simp [fetchSucceeded, onModelSelect, startLoad, hideCurrentModel,
            savePreviousModelState, h5, h9, h1, entSet, entUpd, heidne, h3])
    rw [h8] at r1 r4
    exact ⟨r1, r2, r3, r4, r5, r6⟩
  · intro s0 cfg now1 now2 g1 g2 g3 g4
    obtain ⟨r1, r2, r3, r4, r5⟩ := cancelModelLoading_reset_idle
      (fetchSucceeded cfg (onModelSelect cfg now1 s0).1) now2
      s0.nextEntityId cfg.id
      { entityId := s0.nextEntityId, config := cfg, isReady := false,
        layers := [] }
      (by simp [fetchSucceeded, onModelSelect, startLoad, hideCurrentModel,
        savePreviousModelState, g3, g4, g1])
      (by simp [fetchSucceeded, onModelSelect, startLoad, hideCurrentModel,
        savePreviousModelState, g3, g4, g1])
      (by simp [fetchSucceeded, onModelSelect, startLoad, hideCurrentModel,
        savePreviousModelState, g3, g4, g1])
      (by simp [fetchSucceeded, onModelSelect, startLoad, hideCurrentModel,
        savePreviousModelState, g3, g4, g1, cacheSet])
      rfl
      (by simp [fetchSucceeded, onModelSelect, startLoad, hideCurrentModel,
        savePreviousModelState, computePrevState, g3, g4, g1])
    refine ⟨r1, r2, ?_, r4, r5⟩
    rw [r3]
    simp [fetchSucceeded, onModelSelect, startLoad, hideCurrentModel,
      savePreviousModelState, g3, g4, g1, g2]

/-- Witness for C4 (amended): part one at the placed state
`appTwoCached` (model 5 placed, loading model 9 cancelled), part two at
the idle state `baseApp`. -/
theorem cancel_restores_previous_state_witness :
    appTwoCached.modelIsPlaced = true ∧
    appTwoCached.cache cfgNine.id = none ∧
    ((cancelModelLoading 1000 (fetchSucceeded cfgNine
        (onModelSelect cfgNine 0 appTwoCached).1)).currentModel = some 0 ∧
     (cancelModelLoading 1000 (fetchSucceeded cfgNine
        (onModelSelect cfgNine 0 appTwoCached).1)).activeModelId = some 5 ∧
     (cancelModelLoading 1000 (fetchSucceeded cfgNine
        (onModelSelect cfgNine 0 appTwoCached).1)).modelIsPlaced = true ∧
     (∃ e3, (cancelModelLoading 1000 (fetchSucceeded cfgNine
         (onModelSelect cfgNine 0 appTwoCached).1)).entities 0 = some e3 ∧
       e3.position = entFive.position ∧ e3.scale = entFive.scale ∧
       e3.rotation = entFive.rotation ∧ e3.visible = true) ∧
     (cancelModelLoading 1000 (fetchSucceeded cfgNine
        (onModelSelect cfgNine 0 appTwoCached).1)).entities
          appTwoCached.nextEntityId = none ∧
     (cancelModelLoading 1000 (fetchSucceeded cfgNine
        (onModelSelect cfgNine 0 appTwoCached).1)).cache cfgNine.id = none) ∧
    ((cancelModelLoading 1000 (fetchSucceeded cfgNine
        (onModelSelect cfgNine 0 baseApp).1)).currentModel = none ∧
     (cancelModelLoading 1000 (fetchSucceeded cfgNine
        (onModelSelect cfgNine 0 baseApp).1)).activeModelId = none ∧
     (cancelModelLoading 1000 (fetchSucceeded cfgNine
        (onModelSelect cfgNine 0 baseApp).1)).modelIsPlaced = false ∧
     (cancelModelLoading 1000 (fetchSucceeded cfgNine
        (onModelSelect cfgNine 0 baseApp).1)).entities
          baseApp.nextEntityId = none ∧
     (cancelModelLoading 1000 (fetchSucceeded cfgNine
        (onModelSelect cfgNine 0 baseApp).1)).cache cfgNine.id = none) :=
  ⟨rfl, rfl,
   cancel_restores_previous_state.1 appTwoCached cfgNine 0 1000 0 5 entFive
     { entityId := 0, config := cfgFive, isReady := true, layers := [] }
     rfl rfl rfl rfl rfl rfl rfl rfl rfl rfl,
   cancel_restores_previous_state.2 baseApp cfgNine 0 1000 rfl rfl rfl rfl⟩

/-- Counterexample to C4 as stated: a load started while model 5 was
active but NOT placed (`modelIsPlaced = false`, so no model was
previously placed), then cancelled after the fetch.  Contrary to the
claim's "leaves the state at Idle (no current model, no active model
id)", cancel restores model 5 as the current and active model. -/
theorem cancel_after_unplaced_select_not_idle :
    appActiveUnplaced.modelIsPlaced = false ∧
    (cancelModelLoading 1000 (fetchSucceeded cfgSeven
        (onModelSelect cfgSeven 0 appActiveUnplaced).1)).activeModelId
      = some 5 ∧
    (cancelModelLoading 1000 (fetchSucceeded cfgSeven
        (onModelSelect cfgSeven 0 appActiveUnplaced).1)).currentModel
      = some 0 := by
  refine ⟨rfl, ?_, ?_⟩ <;> rfl

end WebAR
